import Mathlib

/-!
Shallow embedding of mesonbuild/cmake/executor.py (class CMakeExecutor).

The embedded code covers: per-machine discovery of a cmake binary with a
process-wide cache (class_cmakebin / class_cmakevers), the version query
of a candidate (check_cmake), the process-wide invocation cache keyed by
(binary, args, build_dir, frozen environment) (class_cmake_cache, call,
_call_real, _cache_key) and the fake-build staging (call_with_fake_build).

External collaborators are modelled as explicit inputs: the process-launch
primitive Popen_safe, os.environ, os.path.realpath and ctypes.sizeof live
in a World record; the Environment collaborator (binary lookup, default
candidate list, machine predicate) and the ExternalProgram constructors
live in an Environment record.  mlog calls have no observable effect and
are not modelled.  os.environ is part of the mutable run state, read and
never written by the embedded code.  The filesystem is a map from paths to
file contents plus a set of created directories; mutating filesystem calls
are counted (fsOps), as are process launches (procCount), so that
"executes the process exactly once" and "performs no filesystem
operation" are stateable.
-/

inductive MachineChoice where
  | build
  | host
deriving DecidableEq

structure PerMachine (α : Type) where
  build : α
  host : α
deriving DecidableEq

def PerMachine.get {α : Type} (pm : PerMachine α) : MachineChoice → α
  | .build => pm.build
  | .host => pm.host

def PerMachine.set {α : Type} (pm : PerMachine α) : MachineChoice → α → PerMachine α
  | .build, x => { pm with build := x }
  | .host, x => { pm with host := x }

/-- Model of the ExternalProgram collaborator (dependencies.base): display
name, command line, path and the found flag.  Instances are immutable and
compared by identity, which structural equality models. -/
structure ExternalProgram where
  name : String
  command : List String
  path : String
  is_found : Bool
deriving DecidableEq

/-- Outcome of the Popen_safe launch inside check_cmake: a completed
process, or one of the two exceptions the code catches. -/
inductive LaunchOutcome where
  | ok (returncode : Int) (stdout : String) (stderr : String)
  | fileNotFound
  | permissionError

/-- The fixed ambient collaborators: the launch primitive used by
check_cmake (no env or cwd), the launch primitive used by _call_real
(with env and cwd), os.path.realpath(__file__) and
ctypes.sizeof(ctypes.c_voidp). -/
structure World where
  launchVer : List String → LaunchOutcome
  launch : List String → List (String × String) → String → Int × String × String
  realpathSelf : String
  voidpSize : Nat

/-- The Environment collaborator: binaries[machine].lookup_entry('cmake'),
machines.matches_build_machine, default_cmake, and the two ExternalProgram
constructors used by the search generator. -/
structure Environment where
  lookup_entry : MachineChoice → Option String
  matches_build_machine : MachineChoice → Bool
  default_cmake : List String
  from_entry : String → ExternalProgram
  from_path : String → ExternalProgram

/-- Python str whitespace for the purposes of strip() and the regex class
in check_cmake. -/
def isPySpace (c : Char) : Bool :=
  c = ' ' || c = '\t' || c = '\n' || c = '\r' || c = '\x0b' || c = '\x0c'

/-- Match a literal character list at the head, returning the rest. -/
def matchLit : List Char → List Char → Option (List Char)
  | [], cs => some cs
  | _ :: _, [] => none
  | l :: ls, c :: cs => if c = l then matchLit ls cs else none

/-- One attempted regex match of the pattern whitespace-star,
"cmake version", whitespace-star, anchored at the current position:
greedily consume whitespace, require the literal, greedily consume
trailing whitespace.  (The literal begins with a non-space character, so
the greedy first star never needs backtracking.) -/
def tryBannerMatch (cs : List Char) : Option (List Char) :=
  match matchLit "cmake version".data (cs.dropWhile isPySpace) with
  | some rest => some (rest.dropWhile isPySpace)
  | none => none

/-- re.sub of the banner pattern with the empty string: scan left to
right, deleting each leftmost match.  Fuel is the input length, which
suffices because every match consumes at least the literal. -/
def reSubBanner : Nat → List Char → List Char
  | 0, _ => []
  | _ + 1, [] => []
  | fuel + 1, c :: rest =>
    match tryBannerMatch (c :: rest) with
    | some rest2 => reSubBanner fuel rest2
    | none => c :: reSubBanner fuel rest

/-- Python str.strip(): drop leading and trailing whitespace. -/
def pyStrip (cs : List Char) : List Char :=
  ((cs.dropWhile isPySpace).reverse.dropWhile isPySpace).reverse

/-- The version extraction in check_cmake:
re.sub of the banner pattern on out.split with newline, first element,
then strip(). -/
def parseVersionBanner (out : String) : String :=
  let line := out.data.takeWhile (fun c => c != '\n')
  String.mk (pyStrip (reSubBanner line.length line))

/-- Split a character list on the dot character. -/
def splitDot : List Char → List (List Char)
  | [] => [[]]
  | c :: rest =>
    if c = '.' then [] :: splitDot rest
    else match splitDot rest with
      | h :: t => (c :: h) :: t
      | [] => [[c]]

/-- Read a decimal component. -/
def compToNat (cs : List Char) : Nat :=
  cs.foldl (fun a c => a * 10 + (c.toNat - 48)) 0

/-- Numeric components of a dotted version string. -/
def versionComponents (s : String) : List Nat :=
  (splitDot s.data).map compToNat

/-- Component-wise version ordering, missing components read as zero. -/
def verCmp : List Nat → List Nat → Ordering
  | [], b => if b.all (fun x => x == 0) then Ordering.eq else Ordering.lt
  | a :: as, [] => if a = 0 then verCmp as [] else Ordering.gt
  | a :: as, b :: bs =>
    if a < b then Ordering.lt
    else if b < a then Ordering.gt
    else verCmp as bs

/-- Modelled from the spec: mesonlib.version_compare is not under src/
(only executor.py is); the spec defines VersionString comparison as
component-wise version ordering, with acceptance when the candidate
version is at least the minimum. -/
def version_compare (v minv : String) : Bool :=
  match verCmp (versionComponents v) (versionComponents minv) with
  | Ordering.lt => false
  | _ => true

/-- One per-machine slot of the class-level discovery cache: Python None
(never searched), Python False (searched, not found), or a found
program. -/
inductive CacheSlot where
  | unresolved
  | absent
  | found (p : ExternalProgram)
deriving DecidableEq

/-- The class-level discovery state of CMakeExecutor, plus a counter of
version-gate probes (check_cmake launches) used to state that cached
discovery does not re-probe. -/
structure CMakeState where
  class_cmakebin : PerMachine CacheSlot
  class_cmakevers : PerMachine (Option String)
  probeCount : Nat
deriving DecidableEq

def initialCMakeState : CMakeState :=
  { class_cmakebin := ⟨CacheSlot.unresolved, CacheSlot.unresolved⟩
    class_cmakevers := ⟨none, none⟩
    probeCount := 0 }

/-- check_cmake: reject a not-found handle; launch the version query;
absorb FileNotFoundError, PermissionError and a non-zero exit code into a
None result; otherwise parse the first output line. -/
def check_cmake (w : World) (cmakebin : ExternalProgram) : Option String :=
  if cmakebin.is_found = false then none
  else
    match w.launchVer (cmakebin.command ++ ["--version"]) with
    | .fileNotFound => none
    | .permissionError => none
    | .ok rc out _ => if rc ≠ 0 then none else some (parseVersionBanner out)

/-- The candidate generator inside find_cmake_binary: an explicit entry
from the cross or native file yields exactly one candidate and stops;
otherwise the hard-coded defaults are yielded, and only for the machine
performing the build. -/
def search (env : Environment) (for_machine : MachineChoice) : List ExternalProgram :=
  match env.lookup_entry for_machine with
  | some potential_cmakepath => [env.from_entry potential_cmakepath]
  | none =>
    if env.matches_build_machine for_machine then
      env.default_cmake.map env.from_path
    else []

/-- The for-else loop of find_cmake_binary: probe candidates in order,
store the first one whose check_cmake result is truthy, or store absent
when the sequence is exhausted.  The guard is Python truthiness
(if not version_if_ok: continue), which skips a None result and also a
result that parsed to the empty string.  Each probed candidate bumps
probeCount. -/
def findLoop (w : World) (m : MachineChoice) :
    List ExternalProgram → CMakeState → CMakeState
  | [], st =>
    { st with
      class_cmakebin := st.class_cmakebin.set m CacheSlot.absent
      class_cmakevers := st.class_cmakevers.set m none }
  | c :: rest, st =>
    let st1 : CMakeState := { st with probeCount := st.probeCount + 1 }
    match check_cmake w c with
    | none => findLoop w m rest st1
    | some v =>
      if v = "" then findLoop w m rest st1
      else
        { st1 with
          class_cmakebin := st1.class_cmakebin.set m (CacheSlot.found c)
          class_cmakevers := st1.class_cmakevers.set m (some v) }

/-- find_cmake_binary: when the class slot is already False or a program,
return it unchanged; only when it is None run the search loop.  Returns
the (possibly updated) slot pair together with the new class state. -/
def find_cmake_binary (w : World) (env : Environment) (m : MachineChoice)
    (st : CMakeState) : (CacheSlot × Option String) × CMakeState :=
  let st2 :=
    match st.class_cmakebin.get m with
    | CacheSlot.absent => st
    | CacheSlot.found _ => st
    | CacheSlot.unresolved => findLoop w m (search env m) st
  ((st2.class_cmakebin.get m, st2.class_cmakevers.get m), st2)

/-- Python exceptions that can escape the embedded methods. -/
inductive PyError where
  | attributeErrorNoneGetPath
  | attributeErrorNoneGetCommand
  | typeErrorVersionCompare
deriving DecidableEq

/-- The per-instance attributes set by a completed CMakeExecutor
constructor. -/
structure CMakeExecutorInst where
  min_version : String
  for_machine : MachineChoice
  cmakebin : Option ExternalProgram
  cmakevers : Option String
deriving DecidableEq

/-- The CMakeExecutor constructor.  After find_cmake_binary: a False slot
becomes cmakebin None and the constructor returns; otherwise the minimum
version is checked, and on failure the code first assigns cmakebin None
and then evaluates cmakebin.get_path() inside the warning call, so the
constructor raises AttributeError instead of returning.  (A None slot
would reach version_compare with a None version and raise; it is
unreachable after find_cmake_binary.) -/
def initExecutor (w : World) (env : Environment) (version : String)
    (for_machine : MachineChoice) (st : CMakeState) :
    Except PyError CMakeExecutorInst × CMakeState :=
  match find_cmake_binary w env for_machine st with
  | ((slot, vers), st1) =>
    match slot with
    | CacheSlot.absent =>
      (Except.ok ⟨version, for_machine, none, vers⟩, st1)
    | CacheSlot.unresolved => (Except.error PyError.typeErrorVersionCompare, st1)
    | CacheSlot.found p =>
      match vers with
      | none => (Except.error PyError.typeErrorVersionCompare, st1)
      | some v =>
        if version_compare v version then
          (Except.ok ⟨version, for_machine, some p, some v⟩, st1)
        else
          (Except.error PyError.attributeErrorNoneGetPath, st1)

def CMakeExecutorInst.foundExe (e : CMakeExecutorInst) : Bool :=
  e.cmakebin.isSome

def CMakeExecutorInst.version (e : CMakeExecutorInst) : Option String :=
  e.cmakevers

def CMakeExecutorInst.machine_choice (e : CMakeExecutorInst) : MachineChoice :=
  e.for_machine

/-- A captured (returncode, stdout, stderr) triple. -/
abbrev InvRes := Int × String × String

/-- env dictionaries as lists of items. -/
abbrev EnvItems := List (String × String)

/-- The key of class_cmake_cache: self.cmakebin, tuple(args), build_dir
and frozenset(env.items()) when env is not None, else the None
sentinel. -/
abbrev CacheKey :=
  Option ExternalProgram × List String × String × Option (Finset (String × String))

instance : DecidableEq (Option (Finset (String × String))) := inferInstance

instance : DecidableEq CacheKey := inferInstance

deriving instance DecidableEq for Except

/-- First-match association-list lookup (dict membership and read). -/
def alookup {α β : Type} [DecidableEq α] : List (α × β) → α → Option β
  | [], _ => none
  | (k, v) :: t, a => if a = k then some v else alookup t a

/-- In-place association-list update (open for writing truncates). -/
def setAssoc {α β : Type} [DecidableEq α] : List (α × β) → α → β → List (α × β)
  | [], k, v => [(k, v)]
  | (k1, v1) :: t, k, v =>
    if k = k1 then (k, v) :: t else (k1, v1) :: setAssoc t k v

/-- Filesystem: file contents by path, plus created directories. -/
structure FS where
  files : List (String × String)
  dirs : List String
deriving DecidableEq

/-- os.path.exists. -/
def FS.pathExists (fs : FS) (p : String) : Bool :=
  (alookup fs.files p).isSome || fs.dirs.contains p

/-- Mutable run state threaded through the invocation methods: the class
level invocation cache, the filesystem, os.environ, and two
instrumentation counters — process launches performed and mutating
filesystem calls performed (os.makedirs and file writes). -/
structure RunState where
  cache : List (CacheKey × InvRes)
  fs : FS
  osEnviron : EnvItems
  procCount : Nat
  fsOps : Nat
deriving DecidableEq

/-- os.makedirs(d, exist_ok=True). -/
def RunState.makedirs (rs : RunState) (d : String) : RunState :=
  { rs with
    fs := { rs.fs with
            dirs := if rs.fs.dirs.contains d then rs.fs.dirs else d :: rs.fs.dirs }
    fsOps := rs.fsOps + 1 }

/-- open(p, 'w') followed by write(content). -/
def RunState.write (rs : RunState) (p content : String) : RunState :=
  { rs with
    fs := { rs.fs with files := setAssoc rs.fs.files p content }
    fsOps := rs.fsOps + 1 }

/-- _cache_key: frozenset(env.items()) if env is not None else None,
tuple(args), and (self.cmakebin, targs, build_dir, fenv). -/
def _cache_key (cmakebin : Option ExternalProgram) (args : List String)
    (build_dir : String) (env : Option EnvItems) : CacheKey :=
  (cmakebin, args, build_dir, env.map (fun e => e.toFinset))

/-- _call_real: create the build directory, then run
self.cmakebin.get_command() + args (raising AttributeError when cmakebin
is None) and capture the triple. -/
def _call_real (w : World) (e : CMakeExecutorInst) (args : List String)
    (build_dir : String) (env : EnvItems) (rs : RunState) :
    Except PyError InvRes × RunState :=
  let rs1 := rs.makedirs build_dir
  match e.cmakebin with
  | none => (Except.error PyError.attributeErrorNoneGetCommand, rs1)
  | some p =>
    let cmd := p.command ++ args
    let res := w.launch cmd env build_dir
    (Except.ok res, { rs1 with procCount := rs1.procCount + 1 })

/-- call: substitute os.environ for a None env; with disable_cache run the
process unconditionally; otherwise consult class_cmake_cache under the
key, filling it on a miss. -/
def call (w : World) (e : CMakeExecutorInst) (args : List String)
    (build_dir : String) (env : Option EnvItems) (disable_cache : Bool)
    (rs : RunState) : Except PyError InvRes × RunState :=
  let env1 : EnvItems := env.getD rs.osEnviron
  if disable_cache then _call_real w e args build_dir env1 rs
  else
    let key := _cache_key e.cmakebin args build_dir (some env1)
    match alookup rs.cache key with
    | some res => (Except.ok res, rs)
    | none =>
      match _call_real w e args build_dir env1 rs with
      | (Except.ok res, rs1) =>
        (Except.ok res, { rs1 with cache := (key, res) :: rs1.cache })
      | (Except.error er, rs1) => (Except.error er, rs1)

/-- Python string interpolation of an optional string attribute. -/
def pyStr : Option String → String
  | some s => s
  | none => "None"

def markerContent : String := "CMAKE_PLATFORM_INFO_INITIALIZED:INTERNAL=1\n"

/-- The C compiler stub written by call_with_fake_build. -/
def cCompContent (w : World) : String :=
  "# Fake CMake file to skip the boring and slow stuff\n" ++
  "set(CMAKE_C_COMPILER \"" ++ w.realpathSelf ++
    "\") # Just give CMake a valid full path to any file\n" ++
  "set(CMAKE_C_COMPILER_ID \"GNU\") # Pretend we have found GCC\n" ++
  "set(CMAKE_COMPILER_IS_GNUCC 1)\n" ++
  "set(CMAKE_C_COMPILER_LOADED 1)\n" ++
  "set(CMAKE_C_COMPILER_WORKS TRUE)\n" ++
  "set(CMAKE_C_ABI_COMPILED TRUE)\n" ++
  "set(CMAKE_SIZEOF_VOID_P \"" ++ toString w.voidpSize ++ "\")\n"

/-- The C++ compiler stub written by call_with_fake_build. -/
def cxxCompContent (w : World) : String :=
  "# Fake CMake file to skip the boring and slow stuff\n" ++
  "set(CMAKE_CXX_COMPILER \"" ++ w.realpathSelf ++
    "\") # Just give CMake a valid full path to any file\n" ++
  "set(CMAKE_CXX_COMPILER_ID \"GNU\") # Pretend we have found GCC\n" ++
  "set(CMAKE_COMPILER_IS_GNUCXX 1)\n" ++
  "set(CMAKE_CXX_COMPILER_LOADED 1)\n" ++
  "set(CMAKE_CXX_COMPILER_WORKS TRUE)\n" ++
  "set(CMAKE_CXX_ABI_COMPILED TRUE)\n" ++
  "set(CMAKE_SIZEOF_VOID_P \"" ++ toString w.voidpSize ++ "\")\n"

/-- The filesystem staging block of call_with_fake_build, run only on a
cache miss: create the build directory, unconditionally rewrite
CMakeCache.txt to the marker line, create the per-version CMakeFiles
directory, and write each compiler stub only if its path does not already
exist. -/
def fakeStage (w : World) (e : CMakeExecutorInst) (build_dir : String)
    (rs : RunState) : RunState :=
  let rs1 := rs.makedirs build_dir
  let rs2 := rs1.write (build_dir ++ "/CMakeCache.txt") markerContent
  let comp_dir := build_dir ++ "/CMakeFiles/" ++ pyStr e.cmakevers
  let rs3 := rs2.makedirs comp_dir
  let c_comp := comp_dir ++ "/CMakeCCompiler.cmake"
  let cxx_comp := comp_dir ++ "/CMakeCXXCompiler.cmake"
  let rs4 := if rs3.fs.pathExists c_comp then rs3 else rs3.write c_comp (cCompContent w)
  if rs4.fs.pathExists cxx_comp then rs4 else rs4.write cxx_comp (cxxCompContent w)

/-- call_with_fake_build: check class_cmake_cache under the key computed
from the given env (the None sentinel when unspecified); on a hit return
the stored triple without touching the filesystem; otherwise run the
staging block and delegate to call. -/
def call_with_fake_build (w : World) (e : CMakeExecutorInst)
    (args : List String) (build_dir : String) (env : Option EnvItems)
    (rs : RunState) : Except PyError InvRes × RunState :=
  let key := _cache_key e.cmakebin args build_dir env
  match alookup rs.cache key with
  | some res => (Except.ok res, rs)
  | none => call w e args build_dir env false (fakeStage w e build_dir rs)

/-! ## Concrete fixtures for counterexamples and witnesses -/

/-- A found ExternalProgram at a literal path. -/
def fixProg (p : String) : ExternalProgram := ⟨"cmake", [p], p, true⟩

/-- A world whose version query succeeds with the given banner. -/
def fixWorld (banner : String) : World :=
  { launchVer := fun _ => LaunchOutcome.ok 0 banner ""
    launch := fun _ _ _ => (0, "", "")
    realpathSelf := "/meson/mesonbuild/cmake/executor.py"
    voidpSize := 8 }

/-- A world whose version query has the given outcome. -/
def fixWorldOutcome (o : LaunchOutcome) : World :=
  { launchVer := fun _ => o
    launch := fun _ _ _ => (0, "", "")
    realpathSelf := "/meson/mesonbuild/cmake/executor.py"
    voidpSize := 8 }

/-- No explicit entry; one hard-coded default candidate. -/
def fixEnvDefault : Environment :=
  { lookup_entry := fun _ => none
    matches_build_machine := fun m => m == MachineChoice.build
    default_cmake := ["cmake"]
    from_entry := fixProg
    from_path := fixProg }

/-- An explicit entry for every machine. -/
def fixEnvEntry (path : String) : Environment :=
  { lookup_entry := fun _ => some path
    matches_build_machine := fun m => m == MachineChoice.build
    default_cmake := ["cmake"]
    from_entry := fixProg
    from_path := fixProg }

/-- An explicit entry whose program is unusable (found() is false). -/
def fixEnvEntryBad (path : String) : Environment :=
  { lookup_entry := fun _ => some path
    matches_build_machine := fun m => m == MachineChoice.build
    default_cmake := ["cmake"]
    from_entry := fun p => ⟨"cmake", [p], p, false⟩
    from_path := fixProg }

/-- An executor instance whose discovery succeeded with version 3.13.0. -/
def fixExec : CMakeExecutorInst :=
  ⟨"3.5", MachineChoice.build, some (fixProg "/usr/bin/cmake"), some "3.13.0"⟩

/-- Empty run state with a one-entry ambient environment. -/
def fixRun : RunState := ⟨[], ⟨[], []⟩, [("PATH", "/bin")], 0, 0⟩

/-- The first candidate of a list whose check_cmake result is truthy
(neither None nor the empty string), with its parsed version: the
candidate find_cmake_binary's loop stores. -/
def firstAccepted (w : World) : List ExternalProgram → Option (ExternalProgram × String)
  | [] => none
  | c :: rest =>
    match check_cmake w c with
    | some v => if v = "" then firstAccepted w rest else some (c, v)
    | none => firstAccepted w rest

/-- A world whose launch result depends on the environment passed to the
process. -/
def c6World : World :=
  { launchVer := fun _ => LaunchOutcome.ok 0 "cmake version 3.13.0\n" ""
    launch := fun _ env _ => (0, if env.contains ("X", "1") then "one" else "two", "")
    realpathSelf := "/meson/mesonbuild/cmake/executor.py"
    voidpSize := 8 }

def c6Run : RunState := ⟨[], ⟨[], []⟩, [("X", "1")], 0, 0⟩

/-- Run state whose cache already holds an unspecified-env key stored with an
ambient snapshot of two entries. -/
def c6HitRun : RunState :=
  ⟨[((some (fixProg "/usr/bin/cmake"), ["--version"], "/b6",
      some (([("A", "1"), ("B", "2")] : EnvItems).toFinset)), (0, "hit", ""))],
   ⟨[], []⟩, [("A", "1"), ("B", "2")], 0, 0⟩

/-- Run state with both compiler stubs already staged for fixExec's
version under /b. -/
def c4StubRun : RunState :=
  ⟨[], ⟨[("/b/CMakeFiles/3.13.0/CMakeCCompiler.cmake", "C0"),
         ("/b/CMakeFiles/3.13.0/CMakeCXXCompiler.cmake", "X0")], []⟩,
   [("PATH", "/bin")], 0, 0⟩

/-- Run state where CMakeCache.txt already exists with content "OLD". -/
def c4MarkerRun : RunState :=
  ⟨[], ⟨[("/b/CMakeCache.txt", "OLD")], []⟩, [("PATH", "/bin")], 0, 0⟩

/-! ## Helper lemmas -/

@[simp]
theorem PerMachine.get_set_same {α : Type} (pm : PerMachine α) (m : MachineChoice) (x : α) :
    (pm.set m x).get m = x := by
  cases m <;> rfl



theorem findLoop_spec (w : World) (m : MachineChoice) :
    ∀ (l : List ExternalProgram) (st : CMakeState),
      (findLoop w m l st).class_cmakebin.get m =
        (match firstAccepted w l with
         | some pv => CacheSlot.found pv.1
         | none => CacheSlot.absent) ∧
      (findLoop w m l st).class_cmakevers.get m =
        (firstAccepted w l).map Prod.snd := by
  intro l
  induction l with
  | nil =>
    intro st
    constructor <;> simp [findLoop, firstAccepted]
  | cons c rest ih =>
    intro st
    cases hc : check_cmake w c with
    | none =>
      have h2 := ih { st with probeCount := st.probeCount + 1 }
      constructor <;> simp [findLoop, firstAccepted, hc, h2.1, h2.2]
    | some v =>
      by_cases hv : v = ""
      · have h2 := ih { st with probeCount := st.probeCount + 1 }
        constructor <;> simp [findLoop, firstAccepted, hc, hv, h2.1, h2.2]
      · constructor <;> simp [findLoop, firstAccepted, hc, hv]

theorem find_cached (w : World) (env : Environment) (m : MachineChoice) (st : CMakeState)
    (h : st.class_cmakebin.get m ≠ CacheSlot.unresolved) :
    find_cmake_binary w env m st =
      ((st.class_cmakebin.get m, st.class_cmakevers.get m), st) := by
  unfold find_cmake_binary
  cases hs : st.class_cmakebin.get m with
  | unresolved => exact absurd hs h
  | absent => simp [hs]
  | found p => simp [hs]

theorem find_resolves (w : World) (env : Environment) (m : MachineChoice) (st : CMakeState) :
    (find_cmake_binary w env m st).2.class_cmakebin.get m ≠ CacheSlot.unresolved := by
  unfold find_cmake_binary
  cases hs : st.class_cmakebin.get m with
  | unresolved =>
    have h2 := (findLoop_spec w m (search env m) st).1
    simp only [hs]
    rw [h2]
    cases firstAccepted w (search env m) <;> simp
  | absent => simp [hs]
  | found p => simp [hs]

theorem alookup_setAssoc {α β : Type} [DecidableEq α] (l : List (α × β)) (k a : α) (v : β) :
    alookup (setAssoc l k v) a = if a = k then some v else alookup l a := by
  induction l with
  | nil => simp [setAssoc, alookup]
  | cons p t ih =>
    obtain ⟨k1, v1⟩ := p
    by_cases h1 : k = k1
    · subst h1
      by_cases h2 : a = k <;> simp [setAssoc, alookup, h2]
    · by_cases h2 : a = k1
      · subst h2
        have h3 : ¬ a = k := fun hx => h1 hx.symm
        simp [setAssoc, alookup, h1, h3]
      · simp [setAssoc, alookup, h1, h2, ih]

theorem alookup_cons_self {α β : Type} [DecidableEq α] (l : List (α × β)) (k : α) (v : β) :
    alookup ((k, v) :: l) k = some v := by
  simp [alookup]

@[simp]
theorem files_makedirs (rs : RunState) (d : String) :
    (rs.makedirs d).fs.files = rs.fs.files := rfl

@[simp]
theorem cache_makedirs (rs : RunState) (d : String) :
    (rs.makedirs d).cache = rs.cache := rfl

@[simp]
theorem osEnviron_makedirs (rs : RunState) (d : String) :
    (rs.makedirs d).osEnviron = rs.osEnviron := rfl

@[simp]
theorem procCount_makedirs (rs : RunState) (d : String) :
    (rs.makedirs d).procCount = rs.procCount := rfl

@[simp]
theorem cache_write (rs : RunState) (p c : String) :
    (rs.write p c).cache = rs.cache := rfl

@[simp]
theorem osEnviron_write (rs : RunState) (p c : String) :
    (rs.write p c).osEnviron = rs.osEnviron := rfl

@[simp]
theorem dirs_write (rs : RunState) (p c : String) :
    (rs.write p c).fs.dirs = rs.fs.dirs := rfl

theorem alookup_files_write (rs : RunState) (p c : String) (q : String) :
    alookup (rs.write p c).fs.files q = if q = p then some c else alookup rs.fs.files q := by
  simp [RunState.write, alookup_setAssoc]

theorem pathExists_write_mono (rs : RunState) (p c q : String)
    (h : rs.fs.pathExists q = true) : (rs.write p c).fs.pathExists q = true := by
  unfold FS.pathExists at h ⊢
  rw [alookup_files_write, dirs_write]
  by_cases hq : q = p
  · simp [hq]
  · simpa [hq] using h

theorem pathExists_makedirs_mono (rs : RunState) (d q : String)
    (h : rs.fs.pathExists q = true) : (rs.makedirs d).fs.pathExists q = true := by
  unfold FS.pathExists at h ⊢
  rw [files_makedirs]
  rcases Bool.or_eq_true_iff.mp h with h1 | h1
  · exact Bool.or_eq_true_iff.mpr (Or.inl h1)
  · refine Bool.or_eq_true_iff.mpr (Or.inr ?hd)
    show (if rs.fs.dirs.contains d then rs.fs.dirs else d :: rs.fs.dirs).contains q = true
    by_cases hc : rs.fs.dirs.contains d = true
    · simp only [hc, if_true]
      exact h1
    · simp only [Bool.not_eq_true] at hc
      simp only [hc, Bool.false_eq_true, if_false, List.contains_cons]
      exact Bool.or_eq_true_iff.mpr (Or.inr h1)

theorem call_real_eq (w : World) (e : CMakeExecutorInst) (p : ExternalProgram)
    (args : List String) (dir : String) (env : EnvItems) (rs : RunState)
    (hp : e.cmakebin = some p) :
    _call_real w e args dir env rs =
      (Except.ok (w.launch (p.command ++ args) env dir),
       { rs.makedirs dir with procCount := (rs.makedirs dir).procCount + 1 }) := by
  unfold _call_real
  rw [hp]

theorem call_real_none (w : World) (e : CMakeExecutorInst)
    (args : List String) (dir : String) (env : EnvItems) (rs : RunState)
    (hp : e.cmakebin = none) :
    _call_real w e args dir env rs =
      (Except.error PyError.attributeErrorNoneGetCommand, rs.makedirs dir) := by
  unfold _call_real
  rw [hp]

theorem call_hit_eq (w : World) (e : CMakeExecutorInst) (args : List String)
    (dir : String) (env : Option EnvItems) (rs : RunState) (res : InvRes)
    (hhit : alookup rs.cache
        (_cache_key e.cmakebin args dir (some (env.getD rs.osEnviron))) = some res) :
    call w e args dir env false rs = (Except.ok res, rs) := by
  unfold call
  simp only [Bool.false_eq_true, if_false, hhit]

theorem call_miss_eq (w : World) (e : CMakeExecutorInst) (p : ExternalProgram)
    (args : List String) (dir : String) (env : Option EnvItems) (rs : RunState)
    (hp : e.cmakebin = some p)
    (hmiss : alookup rs.cache
        (_cache_key e.cmakebin args dir (some (env.getD rs.osEnviron))) = none) :
    call w e args dir env false rs =
      (Except.ok (w.launch (p.command ++ args) (env.getD rs.osEnviron) dir),
       { rs.makedirs dir with
           procCount := (rs.makedirs dir).procCount + 1
           cache := (_cache_key e.cmakebin args dir (some (env.getD rs.osEnviron)),
                     w.launch (p.command ++ args) (env.getD rs.osEnviron) dir) :: rs.cache }) := by
  unfold call
  simp only [Bool.false_eq_true, if_false, hmiss]
  rw [call_real_eq w e p args dir (env.getD rs.osEnviron) rs hp]
  rfl

theorem call_disabled_eq (w : World) (e : CMakeExecutorInst)
    (args : List String) (dir : String) (env : Option EnvItems) (rs : RunState) :
    call w e args dir env true rs = _call_real w e args dir (env.getD rs.osEnviron) rs := by
  unfold call
  simp only [if_true]

theorem call_files_eq (w : World) (e : CMakeExecutorInst) (args : List String)
    (dir : String) (env : Option EnvItems) (rs : RunState) :
    (call w e args dir env false rs).2.fs.files = rs.fs.files := by
  cases hhit : alookup rs.cache
      (_cache_key e.cmakebin args dir (some (env.getD rs.osEnviron))) with
  | some res => rw [call_hit_eq w e args dir env rs res hhit]
  | none =>
    cases hp : e.cmakebin with
    | some p =>
      rw [call_miss_eq w e p args dir env rs hp hhit]
      rfl
    | none =>
      unfold call
      simp only [Bool.false_eq_true, if_false, hhit]
      rw [call_real_none w e args dir (env.getD rs.osEnviron) rs hp]
      rfl



/-! ## C1 -/

/-- C1 counterexample: with caller minimum "3.11", the single default
candidate self-reporting "cmake version 3.10.3" fails the minimum, yet
after the executor construction that triggered resolution it is stored in
the class-level discovery cache as the found binary with version 3.10.3 —
a candidate below the first caller's minimum does become the cached
record, refuting the claimed iff. -/
theorem c1_below_min_candidate_is_cached :
    (initExecutor (fixWorld "cmake version 3.10.3\n") fixEnvDefault "3.11"
        MachineChoice.build initialCMakeState).2.class_cmakebin.get MachineChoice.build
      = CacheSlot.found (fixProg "cmake")
  ∧ (initExecutor (fixWorld "cmake version 3.10.3\n") fixEnvDefault "3.11"
        MachineChoice.build initialCMakeState).2.class_cmakevers.get MachineChoice.build
      = some "3.10.3"
  ∧ version_compare "3.10.3" "3.11" = false := by
  exact ⟨rfl, rfl, rfl⟩

/-- C1 (amended): the Discovery Cache stores a candidate as Resolved iff
it is the first candidate in search order whose version query
(check_cmake) returns a truthy result — a version string that is not the
empty string; a None result and an empty parsed version are both skipped.
The caller's minimum version is not consulted by find_cmake_binary at all
(it is not even an input), so a candidate whose version is below the
first caller's minimum still becomes the cached record, and the minimum
only determines that caller's own found(). -/
theorem c1_cache_stores_first_gate_pass (w : World) (env : Environment)
    (m : MachineChoice) (st : CMakeState)
    (h : st.class_cmakebin.get m = CacheSlot.unresolved) :
    (find_cmake_binary w env m st).2.class_cmakebin.get m =
      (match firstAccepted w (search env m) with
       | some pv => CacheSlot.found pv.1
       | none => CacheSlot.absent)
  ∧ (find_cmake_binary w env m st).2.class_cmakevers.get m =
      (firstAccepted w (search env m)).map Prod.snd := by
  unfold find_cmake_binary
  simp only [h]
  exact findLoop_spec w m (search env m) st

/-- Witness for c1_cache_stores_first_gate_pass at a concrete input. -/
theorem c1_cache_stores_first_gate_pass_witness :
    (find_cmake_binary (fixWorld "cmake version 3.10.3\n") fixEnvDefault
        MachineChoice.build initialCMakeState).2.class_cmakebin.get MachineChoice.build =
      (match firstAccepted (fixWorld "cmake version 3.10.3\n")
          (search fixEnvDefault MachineChoice.build) with
       | some pv => CacheSlot.found pv.1
       | none => CacheSlot.absent) :=
  (c1_cache_stores_first_gate_pass (fixWorld "cmake version 3.10.3\n") fixEnvDefault
    MachineChoice.build initialCMakeState rfl).1

/-! ## C2 -/

/-- C2: in the claimed scenario (caller minimum "3.10", single default
candidate, version query succeeds with banner "cmake version 3.9.0") the
constructor does NOT complete normally: after find_cmake_binary the code
assigns self.cmakebin = None and then evaluates self.cmakebin.get_path()
as an argument of mlog.warning, so construction raises AttributeError
instead of producing an executor with found() false. -/
theorem c2_construction_raises_on_below_min_version :
    (initExecutor (fixWorld "cmake version 3.9.0\n") fixEnvDefault "3.10"
        MachineChoice.build initialCMakeState).1
      = Except.error PyError.attributeErrorNoneGetPath := by
  rfl

/-! ## C3 -/

/-- C3: of the five listed conditions, four are absorbed as claimed —
a not-found candidate, a non-zero exit from the version query, the
executable vanishing (FileNotFoundError) and a permission failure
(PermissionError) all yield a normally constructed executor — but the
fifth, a resolved version below the caller's minimum, escapes the
constructor as an AttributeError (cmakebin is set to None and then
dereferenced in the warning), so an exception does propagate out of
executor construction under an expected operating condition. -/
theorem c3_version_below_min_escapes_constructor :
    ((initExecutor (fixWorldOutcome (LaunchOutcome.ok 1 "" "")) fixEnvDefault "3.0"
        MachineChoice.build initialCMakeState).1
      = Except.ok ⟨"3.0", MachineChoice.build, none, none⟩)
  ∧ ((initExecutor (fixWorldOutcome LaunchOutcome.fileNotFound) fixEnvDefault "3.0"
        MachineChoice.build initialCMakeState).1
      = Except.ok ⟨"3.0", MachineChoice.build, none, none⟩)
  ∧ ((initExecutor (fixWorldOutcome LaunchOutcome.permissionError) fixEnvDefault "3.0"
        MachineChoice.build initialCMakeState).1
      = Except.ok ⟨"3.0", MachineChoice.build, none, none⟩)
  ∧ ((initExecutor (fixWorld "cmake version 3.11.4\n") (fixEnvEntryBad "/opt/cmake") "3.0"
        MachineChoice.host initialCMakeState).1
      = Except.ok ⟨"3.0", MachineChoice.host, none, none⟩)
  ∧ ((initExecutor (fixWorld "cmake version 3.11.4\n") (fixEnvEntry "/opt/cmake") "3.12"
        MachineChoice.host initialCMakeState).1
      = Except.error PyError.attributeErrorNoneGetPath) := by
  exact ⟨rfl, rfl, rfl, rfl, rfl⟩

/-! ## C8 -/

/-- C8: the per-machine discovery record is write-once.  If the slot for
machine m is already Resolved or ConfirmedAbsent, find_cmake_binary
returns the stored pair and leaves the whole state (including the probe
counter) unchanged; any find_cmake_binary leaves the slot in a resolved
state (never back to Unresolved); and a subsequent executor construction
for m leaves the class state untouched for every minimum version. -/
theorem c8_discovery_record_write_once (w : World) (env : Environment)
    (m : MachineChoice) (st : CMakeState)
    (h : st.class_cmakebin.get m ≠ CacheSlot.unresolved) :
    find_cmake_binary w env m st = ((st.class_cmakebin.get m, st.class_cmakevers.get m), st)
  ∧ (∀ st0 : CMakeState,
      (find_cmake_binary w env m st0).2.class_cmakebin.get m ≠ CacheSlot.unresolved)
  ∧ (∀ ver : String, (initExecutor w env ver m st).2 = st) := by
  refine ⟨find_cached w env m st h, fun st0 => find_resolves w env m st0, fun ver => ?third⟩
  unfold initExecutor
  rw [find_cached w env m st h]
  cases st.class_cmakebin.get m with
  | unresolved => rfl
  | absent => rfl
  | found p =>
    cases st.class_cmakevers.get m with
    | none => rfl
    | some v =>
      by_cases hv : version_compare v ver = true
      · simp only [hv, if_true]
      · simp only [Bool.not_eq_true] at hv
        simp only [hv, Bool.false_eq_true, if_false]

/-- Witness for c8_discovery_record_write_once: a state whose host slot is
already resolved. -/
theorem c8_discovery_record_write_once_witness :
    find_cmake_binary (fixWorld "cmake version 3.13.0\n") fixEnvDefault MachineChoice.host
        ⟨⟨CacheSlot.unresolved, CacheSlot.found (fixProg "/usr/bin/cmake")⟩,
         ⟨none, some "3.13.0"⟩, 5⟩
      = ((CacheSlot.found (fixProg "/usr/bin/cmake"), some "3.13.0"),
         ⟨⟨CacheSlot.unresolved, CacheSlot.found (fixProg "/usr/bin/cmake")⟩,
          ⟨none, some "3.13.0"⟩, 5⟩) :=
  (c8_discovery_record_write_once (fixWorld "cmake version 3.13.0\n") fixEnvDefault
    MachineChoice.host
    ⟨⟨CacheSlot.unresolved, CacheSlot.found (fixProg "/usr/bin/cmake")⟩,
     ⟨none, some "3.13.0"⟩, 5⟩ (by decide)).1

/-! ## C9 -/

/-- C9: when the configuration provides an explicit cmake entry for the
machine, the candidate generator yields exactly the handle built from
that entry and stops: no hard-coded default is ever part of the candidate
sequence, whatever the entry's usability. -/
theorem c9_explicit_entry_sole_candidate (env : Environment) (m : MachineChoice)
    (path : String) (h : env.lookup_entry m = some path) :
    search env m = [env.from_entry path] := by
  unfold search
  rw [h]

/-- Witness for c9_explicit_entry_sole_candidate: an explicit entry whose
program is unusable (found() false) on a cross machine is still the sole
candidate. -/
theorem c9_explicit_entry_sole_candidate_witness :
    search (fixEnvEntryBad "/nonexistent/cmake") MachineChoice.host
      = [(fixEnvEntryBad "/nonexistent/cmake").from_entry "/nonexistent/cmake"] :=
  c9_explicit_entry_sole_candidate (fixEnvEntryBad "/nonexistent/cmake")
    MachineChoice.host "/nonexistent/cmake" rfl

/-! ## C10 -/

/-- C10: with the discovery record stored as ConfirmedAbsent (slot False,
version None), executor construction completes without raising and the
instance has found() = false and version() = None. -/
theorem c10_confirmed_absent_found_false_version_none (w : World) (env : Environment)
    (ver : String) (m : MachineChoice) (st : CMakeState)
    (h1 : st.class_cmakebin.get m = CacheSlot.absent)
    (h2 : st.class_cmakevers.get m = none) :
    ∃ inst : CMakeExecutorInst,
      (initExecutor w env ver m st).1 = Except.ok inst
      ∧ inst.foundExe = false ∧ inst.version = none := by
  refine ⟨⟨ver, m, none, none⟩, ?he, rfl, rfl⟩
  unfold initExecutor
  rw [find_cached w env m st (by rw [h1]; exact fun hc => nomatch hc), h1, h2]

/-- Witness for c10_confirmed_absent_found_false_version_none. -/
theorem c10_confirmed_absent_witness :
    ∃ inst : CMakeExecutorInst,
      (initExecutor (fixWorld "cmake version 3.13.0\n") fixEnvDefault "3.5"
          MachineChoice.build
          ⟨⟨CacheSlot.absent, CacheSlot.unresolved⟩, ⟨none, none⟩, 3⟩).1 = Except.ok inst
      ∧ inst.foundExe = false ∧ inst.version = none :=
  c10_confirmed_absent_found_false_version_none (fixWorld "cmake version 3.13.0\n")
    fixEnvDefault "3.5" MachineChoice.build
    ⟨⟨CacheSlot.absent, CacheSlot.unresolved⟩, ⟨none, none⟩, 3⟩ rfl rfl

theorem call_miss_none_eq (w : World) (e : CMakeExecutorInst)
    (args : List String) (dir : String) (env : Option EnvItems) (rs : RunState)
    (hp : e.cmakebin = none)
    (hmiss : alookup rs.cache
        (_cache_key e.cmakebin args dir (some (env.getD rs.osEnviron))) = none) :
    call w e args dir env false rs
      = (Except.error PyError.attributeErrorNoneGetCommand, rs.makedirs dir) := by
  unfold call
  simp only [Bool.false_eq_true, if_false, hmiss]
  rw [call_real_none w e args dir (env.getD rs.osEnviron) rs hp]

theorem fakeStage_cache (w : World) (e : CMakeExecutorInst) (dir : String)
    (rs : RunState) : (fakeStage w e dir rs).cache = rs.cache := by
  simp only [fakeStage]
  split <;> split <;> rfl

theorem fakeStage_osEnviron (w : World) (e : CMakeExecutorInst) (dir : String)
    (rs : RunState) : (fakeStage w e dir rs).osEnviron = rs.osEnviron := by
  simp only [fakeStage]
  split <;> split <;> rfl

/-! ## C7 -/

/-- C7: with the invocation cache missing the key, two identical call
invocations execute the underlying process exactly once (the process
counter rises by one over the pair), and the second call returns the
identical captured triple and leaves the state unchanged.  With
disable_cache set, the behaviour is pinned for EVERY state rs0 —
including states whose cache already holds this key, with any triple:
the call returns the freshly launched triple (so the cache is never
read), the new state is only the directory creation plus the process
counter increment (so the cache is never written and the process runs on
every invocation). -/
theorem c7_call_memoizes_and_disable_cache_bypasses (w : World)
    (e : CMakeExecutorInst) (p : ExternalProgram) (args : List String)
    (dir : String) (env : Option EnvItems) (rs : RunState)
    (hp : e.cmakebin = some p)
    (hmiss : alookup rs.cache
        (_cache_key e.cmakebin args dir (some (env.getD rs.osEnviron))) = none) :
    ((call w e args dir env false ((call w e args dir env false rs).2)).1
       = (call w e args dir env false rs).1)
  ∧ ((call w e args dir env false ((call w e args dir env false rs).2)).2
       = (call w e args dir env false rs).2)
  ∧ (call w e args dir env false rs).2.procCount = rs.procCount + 1
  ∧ (∀ rs0 : RunState,
      call w e args dir env true rs0
        = (Except.ok (w.launch (p.command ++ args) (env.getD rs0.osEnviron) dir),
           { rs0.makedirs dir with procCount := (rs0.makedirs dir).procCount + 1 }))
  ∧ (∀ rs0 : RunState, (call w e args dir env true rs0).2.cache = rs0.cache)
  ∧ (∀ rs0 : RunState, (call w e args dir env true rs0).2.procCount = rs0.procCount + 1) := by
  have h1 := call_miss_eq w e p args dir env rs hp hmiss
  have h2 : call w e args dir env false ((call w e args dir env false rs).2)
      = ((call w e args dir env false rs).1, (call w e args dir env false rs).2) := by
    rw [h1]
    exact call_hit_eq w e args dir env _ _ (alookup_cons_self _ _ _)
  refine ⟨by rw [h2], by rw [h2], by rw [h1]; rfl, ?c4, ?c5, ?c6⟩
  case c4 =>
    intro rs0
    rw [call_disabled_eq, call_real_eq w e p args dir (env.getD rs0.osEnviron) rs0 hp]
  case c5 =>
    intro rs0
    rw [call_disabled_eq, call_real_eq w e p args dir (env.getD rs0.osEnviron) rs0 hp]
    rfl
  case c6 =>
    intro rs0
    rw [call_disabled_eq, call_real_eq w e p args dir (env.getD rs0.osEnviron) rs0 hp]
    rfl

/-- Witness for c7_call_memoizes_and_disable_cache_bypasses. -/
theorem c7_call_memoizes_witness :
    (call (fixWorld "cmake version 3.13.0\n") fixExec ["--version"] "/w7"
        (some [("A", "1")]) false
        ((call (fixWorld "cmake version 3.13.0\n") fixExec ["--version"] "/w7"
            (some [("A", "1")]) false fixRun).2)).1
      = (call (fixWorld "cmake version 3.13.0\n") fixExec ["--version"] "/w7"
          (some [("A", "1")]) false fixRun).1 :=
  (c7_call_memoizes_and_disable_cache_bypasses (fixWorld "cmake version 3.13.0\n")
    fixExec (fixProg "/usr/bin/cmake") ["--version"] "/w7" (some [("A", "1")])
    fixRun rfl rfl).1

/-! ## C6 -/



/-- C6 counterexample: two call invocations with the environment left
unspecified do NOT map to the same memo key when the ambient environment
changes in between: call substitutes os.environ before keying, so the
second call misses the cache, launches the process a second time (the
counter reaches 2) and returns a different triple instead of the
first call's cached one. -/
theorem c6_unspecified_env_key_depends_on_ambient :
    ((call c6World fixExec ["--version"] "/b6" none false
        { (call c6World fixExec ["--version"] "/b6" none false c6Run).2 with
            osEnviron := [("X", "2")] }).1
      ≠ (call c6World fixExec ["--version"] "/b6" none false c6Run).1)
  ∧ (call c6World fixExec ["--version"] "/b6" none false
        { (call c6World fixExec ["--version"] "/b6" none false c6Run).2 with
            osEnviron := [("X", "2")] }).2.procCount = 2 := by
  exact ⟨by decide, rfl⟩

/-- C6 (amended): the memo key is (cmakebin identity, argument tuple,
working directory, frozenset of environment items), but call replaces an
unspecified environment with the ambient os.environ before computing the
key; the None sentinel reaches _cache_key only when an env argument is
passed as None directly (as in call_with_fake_build's pre-check).  Hence
two unspecified-env calls share a key iff their ambient snapshots are
set-equal: after a completed first call, repeating it with the ambient
environment permuted replays the memo without touching the state. -/
theorem c6_key_is_order_independent_ambient_snapshot (w : World)
    (e : CMakeExecutorInst) (args : List String) (dir : String)
    (rs : RunState) (amb2 : EnvItems)
    (hamb : amb2.toFinset = rs.osEnviron.toFinset) :
    ∀ (res : InvRes) (rs1 : RunState),
      call w e args dir none false rs = (Except.ok res, rs1) →
      call w e args dir none false { rs1 with osEnviron := amb2 }
        = (Except.ok res, { rs1 with osEnviron := amb2 }) := by
  intro res rs1 hfirst
  have hkey : _cache_key e.cmakebin args dir (some amb2)
      = _cache_key e.cmakebin args dir (some rs.osEnviron) := by
    show (e.cmakebin, args, dir, some amb2.toFinset)
        = (e.cmakebin, args, dir, some rs.osEnviron.toFinset)
    rw [hamb]
  cases hl : alookup rs.cache
      (_cache_key e.cmakebin args dir (some ((none : Option EnvItems).getD rs.osEnviron))) with
  | some r =>
    rw [call_hit_eq w e args dir none rs r hl] at hfirst
    rw [Prod.mk.injEq] at hfirst
    obtain ⟨hres, hstate⟩ := hfirst
    injection hres with hres
    have hh : alookup rs1.cache (_cache_key e.cmakebin args dir (some amb2)) = some res := by
      rw [← hstate, hkey]
      exact hres ▸ hl
    exact call_hit_eq w e args dir none { rs1 with osEnviron := amb2 } res hh
  | none =>
    cases hp : e.cmakebin with
    | none =>
      rw [call_miss_none_eq w e args dir none rs hp hl] at hfirst
      rw [Prod.mk.injEq] at hfirst
      exact absurd hfirst.1 (fun hc => nomatch hc)
    | some p =>
      rw [call_miss_eq w e p args dir none rs hp hl] at hfirst
      rw [Prod.mk.injEq] at hfirst
      obtain ⟨hres, hstate⟩ := hfirst
      injection hres with hres
      have hh : alookup rs1.cache (_cache_key e.cmakebin args dir (some amb2)) = some res := by
        rw [← hstate]
        show alookup
            ((_cache_key e.cmakebin args dir (some ((none : Option EnvItems).getD rs.osEnviron)),
              w.launch (p.command ++ args) ((none : Option EnvItems).getD rs.osEnviron) dir)
             :: rs.cache)
            (_cache_key e.cmakebin args dir (some amb2)) = some res
        rw [hkey, hres]
        exact alookup_cons_self _ _ _
      exact call_hit_eq w e args dir none { rs1 with osEnviron := amb2 } res hh

/-- Witness for c6_key_is_order_independent_ambient_snapshot: a cached
unspecified-env call replayed after permuting the ambient environment. -/
theorem c6_key_snapshot_witness :
    call c6World fixExec ["--version"] "/b6" none false
        { c6HitRun with osEnviron := [("B", "2"), ("A", "1")] }
      = (Except.ok ((0 : Int), "hit", ""),
         { c6HitRun with osEnviron := [("B", "2"), ("A", "1")] }) :=
  c6_key_is_order_independent_ambient_snapshot c6World fixExec ["--version"] "/b6"
    c6HitRun [("B", "2"), ("A", "1")] (by decide) ((0 : Int), "hit", "") c6HitRun rfl

/-! ## C5 -/

/-- C5 counterexample: with the environment left unspecified, a second
call_with_fake_build identical to an earlier completed one does NOT
return directly from the pre-check — the pre-check key carries the None
sentinel while the delegated call stored the result under an ambient
environment snapshot — so the second call re-runs the staging and
performs filesystem operations (the mutating-filesystem counter rises
from 6 to 9), contradicting "performs no filesystem operation at all". -/
theorem c5_default_env_repeat_touches_filesystem :
    ((call_with_fake_build (fixWorld "cmake version 3.13.0\n") fixExec ["-G"] "/b5" none
        ((call_with_fake_build (fixWorld "cmake version 3.13.0\n") fixExec ["-G"] "/b5"
            none fixRun).2)).2.fsOps
      ≠ ((call_with_fake_build (fixWorld "cmake version 3.13.0\n") fixExec ["-G"] "/b5"
            none fixRun).2).fsOps)
  ∧ ((call_with_fake_build (fixWorld "cmake version 3.13.0\n") fixExec ["-G"] "/b5"
        none fixRun).2).fsOps = 6
  ∧ ((call_with_fake_build (fixWorld "cmake version 3.13.0\n") fixExec ["-G"] "/b5" none
        ((call_with_fake_build (fixWorld "cmake version 3.13.0\n") fixExec ["-G"] "/b5"
            none fixRun).2)).2.fsOps = 9) := by
  exact ⟨by decide, rfl, rfl⟩

/-- C5 (amended): for an explicitly specified environment the claim
holds — a second call_with_fake_build with arguments identical to an
earlier completed one returns the cached triple directly and leaves the
state (filesystem, directories, counters) completely unchanged.  With
the environment unspecified, the pre-check key (None sentinel) can never
match the key under which the delegated call stored the result (an
ambient snapshot), so the staging re-runs; see the counterexample. -/
theorem c5_explicit_env_repeat_returns_cached_without_fs (w : World)
    (e : CMakeExecutorInst) (args : List String) (dir : String)
    (ev : EnvItems) (rs : RunState) (res : InvRes)
    (hok : (call_with_fake_build w e args dir (some ev) rs).1 = Except.ok res) :
    call_with_fake_build w e args dir (some ev)
        ((call_with_fake_build w e args dir (some ev) rs).2)
      = (Except.ok res, (call_with_fake_build w e args dir (some ev) rs).2) := by
  cases hl : alookup rs.cache (_cache_key e.cmakebin args dir (some ev)) with
  | some r =>
    have e1 : call_with_fake_build w e args dir (some ev) rs = (Except.ok r, rs) := by
      simp only [call_with_fake_build, hl]
    rw [e1] at hok
    have hok2 : Except.ok (ε := PyError) r = Except.ok res := hok
    injection hok2 with hL
    rw [e1]
    show call_with_fake_build w e args dir (some ev) rs = (Except.ok res, rs)
    simp only [call_with_fake_build, hl, hL]
  | none =>
    have e1 : call_with_fake_build w e args dir (some ev) rs
        = call w e args dir (some ev) false (fakeStage w e dir rs) := by
      simp only [call_with_fake_build, hl]
    have hl5 : alookup (fakeStage w e dir rs).cache
        (_cache_key e.cmakebin args dir
          (some ((some ev : Option EnvItems).getD (fakeStage w e dir rs).osEnviron))) = none := by
      rw [fakeStage_cache]
      exact hl
    cases hp : e.cmakebin with
    | none =>
      have e2 := call_miss_none_eq w e args dir (some ev) (fakeStage w e dir rs) hp hl5
      rw [e1, e2] at hok
      exact absurd hok (fun hc => nomatch hc)
    | some p =>
      have e2 := call_miss_eq w e p args dir (some ev) (fakeStage w e dir rs) hp hl5
      rw [e1, e2] at hok
      have hok2 : Except.ok (ε := PyError)
          (w.launch (p.command ++ args)
            ((some ev : Option EnvItems).getD (fakeStage w e dir rs).osEnviron) dir)
          = Except.ok res := hok
      injection hok2 with hL
      rw [e1, e2]
      have hh : alookup
          ((_cache_key e.cmakebin args dir
              (some ((some ev : Option EnvItems).getD (fakeStage w e dir rs).osEnviron)),
            w.launch (p.command ++ args)
              ((some ev : Option EnvItems).getD (fakeStage w e dir rs).osEnviron) dir)
           :: (fakeStage w e dir rs).cache)
          (_cache_key e.cmakebin args dir (some ev)) = some res := by
        rw [hL]
        exact alookup_cons_self _ _ _
      show call_with_fake_build w e args dir (some ev) _ = _
      simp only [call_with_fake_build]
      rw [hh]

/-- Witness for c5_explicit_env_repeat_returns_cached_without_fs. -/
theorem c5_explicit_env_repeat_witness :
    call_with_fake_build (fixWorld "cmake version 3.13.0\n") fixExec ["-G"] "/b5"
        (some [("A", "1")])
        ((call_with_fake_build (fixWorld "cmake version 3.13.0\n") fixExec ["-G"] "/b5"
            (some [("A", "1")]) fixRun).2)
      = (Except.ok ((0 : Int), "", ""),
         (call_with_fake_build (fixWorld "cmake version 3.13.0\n") fixExec ["-G"] "/b5"
            (some [("A", "1")]) fixRun).2) :=
  c5_explicit_env_repeat_returns_cached_without_fs (fixWorld "cmake version 3.13.0\n")
    fixExec ["-G"] "/b5" [("A", "1")] fixRun ((0 : Int), "", "") rfl

/-! ## C4 -/

theorem c_comp_ne_cache (dir v : String) :
    dir ++ "/CMakeFiles/" ++ v ++ "/CMakeCCompiler.cmake" ≠ dir ++ "/CMakeCache.txt" := by
  intro h
  have hlen := congrArg String.length h
  simp only [String.length_append] at hlen
  have h15 : ("/CMakeCache.txt" : String).length = 15 := rfl
  have h12 : ("/CMakeFiles/" : String).length = 12 := rfl
  have h21 : ("/CMakeCCompiler.cmake" : String).length = 21 := rfl
  rw [h12, h21, h15] at hlen
  omega

theorem cxx_comp_ne_cache (dir v : String) :
    dir ++ "/CMakeFiles/" ++ v ++ "/CMakeCXXCompiler.cmake" ≠ dir ++ "/CMakeCache.txt" := by
  intro h
  have hlen := congrArg String.length h
  simp only [String.length_append] at hlen
  have h15 : ("/CMakeCache.txt" : String).length = 15 := rfl
  have h12 : ("/CMakeFiles/" : String).length = 12 := rfl
  have h23 : ("/CMakeCXXCompiler.cmake" : String).length = 23 := rfl
  rw [h12, h23, h15] at hlen
  omega

/-- When both compiler stubs already exist, the staging block reduces to
the two directory creations plus the unconditional CMakeCache.txt
rewrite. -/
theorem fakeStage_eq_of_exists (w : World) (e : CMakeExecutorInst) (dir : String)
    (rs : RunState)
    (hc : rs.fs.pathExists
        (dir ++ "/CMakeFiles/" ++ pyStr e.cmakevers ++ "/CMakeCCompiler.cmake") = true)
    (hcxx : rs.fs.pathExists
        (dir ++ "/CMakeFiles/" ++ pyStr e.cmakevers ++ "/CMakeCXXCompiler.cmake") = true) :
    fakeStage w e dir rs
      = ((rs.makedirs dir).write (dir ++ "/CMakeCache.txt") markerContent).makedirs
          (dir ++ "/CMakeFiles/" ++ pyStr e.cmakevers) := by
  have hc3 := pathExists_makedirs_mono
    ((rs.makedirs dir).write (dir ++ "/CMakeCache.txt") markerContent)
    (dir ++ "/CMakeFiles/" ++ pyStr e.cmakevers) _
    (pathExists_write_mono (rs.makedirs dir) (dir ++ "/CMakeCache.txt") markerContent _
      (pathExists_makedirs_mono rs dir _ hc))
  have hcxx3 := pathExists_makedirs_mono
    ((rs.makedirs dir).write (dir ++ "/CMakeCache.txt") markerContent)
    (dir ++ "/CMakeFiles/" ++ pyStr e.cmakevers) _
    (pathExists_write_mono (rs.makedirs dir) (dir ++ "/CMakeCache.txt") markerContent _
      (pathExists_makedirs_mono rs dir _ hcxx))
  simp only [fakeStage]
  rw [if_pos hc3, if_pos hcxx3]

/-- C4 (amended): the per-language compiler stub files are never
rewritten — when CMakeCCompiler.cmake and CMakeCXXCompiler.cmake already
exist at their expected paths, a call_with_fake_build leaves their
contents unchanged — but the CMakeCache.txt marker file is NOT protected:
on every cache-miss invocation it is unconditionally rewritten to the
marker line (the code deliberately resets the CMake cache), so a
pre-existing CMakeCache.txt with different content is overwritten; see
the counterexample. -/
theorem c4_stub_files_never_rewritten (w : World) (e : CMakeExecutorInst)
    (args : List String) (dir : String) (env : Option EnvItems) (rs : RunState)
    (hc : rs.fs.pathExists
        (dir ++ "/CMakeFiles/" ++ pyStr e.cmakevers ++ "/CMakeCCompiler.cmake") = true)
    (hcxx : rs.fs.pathExists
        (dir ++ "/CMakeFiles/" ++ pyStr e.cmakevers ++ "/CMakeCXXCompiler.cmake") = true) :
    (alookup (call_with_fake_build w e args dir env rs).2.fs.files
        (dir ++ "/CMakeFiles/" ++ pyStr e.cmakevers ++ "/CMakeCCompiler.cmake")
      = alookup rs.fs.files
          (dir ++ "/CMakeFiles/" ++ pyStr e.cmakevers ++ "/CMakeCCompiler.cmake"))
  ∧ (alookup (call_with_fake_build w e args dir env rs).2.fs.files
        (dir ++ "/CMakeFiles/" ++ pyStr e.cmakevers ++ "/CMakeCXXCompiler.cmake")
      = alookup rs.fs.files
          (dir ++ "/CMakeFiles/" ++ pyStr e.cmakevers ++ "/CMakeCXXCompiler.cmake")) := by
  cases hl : alookup rs.cache (_cache_key e.cmakebin args dir env) with
  | some r =>
    have e1 : call_with_fake_build w e args dir env rs = (Except.ok r, rs) := by
      simp only [call_with_fake_build, hl]
    rw [e1]
    exact ⟨rfl, rfl⟩
  | none =>
    have e1 : call_with_fake_build w e args dir env rs
        = call w e args dir env false (fakeStage w e dir rs) := by
      simp only [call_with_fake_build, hl]
    rw [e1, call_files_eq, fakeStage_eq_of_exists w e dir rs hc hcxx]
    constructor
    · show alookup (setAssoc rs.fs.files (dir ++ "/CMakeCache.txt") markerContent)
          (dir ++ "/CMakeFiles/" ++ pyStr e.cmakevers ++ "/CMakeCCompiler.cmake")
        = alookup rs.fs.files
          (dir ++ "/CMakeFiles/" ++ pyStr e.cmakevers ++ "/CMakeCCompiler.cmake")
      rw [alookup_setAssoc, if_neg (c_comp_ne_cache dir (pyStr e.cmakevers))]
    · show alookup (setAssoc rs.fs.files (dir ++ "/CMakeCache.txt") markerContent)
          (dir ++ "/CMakeFiles/" ++ pyStr e.cmakevers ++ "/CMakeCXXCompiler.cmake")
        = alookup rs.fs.files
          (dir ++ "/CMakeFiles/" ++ pyStr e.cmakevers ++ "/CMakeCXXCompiler.cmake")
      rw [alookup_setAssoc, if_neg (cxx_comp_ne_cache dir (pyStr e.cmakevers))]



/-- Witness for c4_stub_files_never_rewritten. -/
theorem c4_stub_files_witness :
    alookup (call_with_fake_build (fixWorld "cmake version 3.13.0\n") fixExec ["-G"] "/b"
        none c4StubRun).2.fs.files
        ("/b" ++ "/CMakeFiles/" ++ pyStr fixExec.cmakevers ++ "/CMakeCCompiler.cmake")
      = alookup c4StubRun.fs.files
          ("/b" ++ "/CMakeFiles/" ++ pyStr fixExec.cmakevers ++ "/CMakeCCompiler.cmake") :=
  (c4_stub_files_never_rewritten (fixWorld "cmake version 3.13.0\n") fixExec ["-G"] "/b"
    none c4StubRun (by decide) (by decide)).1



/-- C4 counterexample: CMakeCache.txt exists with content "OLD" before
the call; after one call_with_fake_build its content is the marker line,
so the existing staged marker file was rewritten by the call. -/
theorem c4_marker_file_rewritten :
    alookup c4MarkerRun.fs.files "/b/CMakeCache.txt" = some "OLD"
  ∧ alookup (call_with_fake_build (fixWorld "cmake version 3.13.0\n") fixExec ["--version"]
        "/b" none c4MarkerRun).2.fs.files "/b/CMakeCache.txt" = some markerContent
  ∧ ("OLD" : String) ≠ markerContent := by
  exact ⟨rfl, rfl, by decide⟩
